import Mathlib

/-!
Verification development for the Utah Avalanche Center scraper
(src/scrape.py, src/observations.py).

Shallow embedding conventions:
  - Python floats are modelled as rationals (all magnitudes handled by the
    scraper are small decimals, and the claims are about exact scaling).
  - Python exceptions are modelled with `Except PyErr`; a raised exception is
    an `Except.error`.
  - External collaborators (HTTP fetch, BeautifulSoup tree navigation, pandas
    tables, the filesystem) are passed in as oracle functions; the navigable
    document tree is modelled at exactly the granularity the code uses
    (find-by-string, find-all-by-string, sibling chains of text nodes).
  - The two regular expressions actually applied by `convert_to_numeric`
    (`RE_UNITS`) are modelled by hand with Python's leftmost, greedy,
    backtracking `re.match` semantics, specialised to those concrete patterns.
-/

namespace UACScrape

/-- Kinds of Python exceptions the modelled code can raise.  `unmodeledRegex`
marks the one corner left outside the model: `re.sub` called with a pattern
character that is a regex metacharacter (no caller in the claims hits it). -/
inductive PyErr
  | typeError
  | attributeError
  | keyError
  | valueError
  | indexError
  | unmodeledRegex
  | outOfFuel
deriving DecidableEq, Repr

/-! ## Numeric normalisation (`contains_digit`, `convert_to_numeric`) -/

/-- Model of `re.search(r"\d", raw_string)` converted to a Bool
(`contains_digit` in scrape.py). -/
def contains_digit (s : String) : Bool := s.toList.any Char.isDigit

/-- Value of a digit string read in base 10 (helper for the float model). -/
def digitsVal (cs : List Char) : Nat := cs.foldl (fun a c => a * 10 + (c.toNat - 48)) 0

/-- Model of Python `float(s)` restricted to unsigned decimal literals, which
is the shape of every capture group the scraper's regexes can produce; any
other string raises `ValueError`, modelled as `none`. -/
def pyFloat (s : String) : Option ℚ :=
  let cs := s.toList
  if cs.isEmpty then none
  else if cs.all Char.isDigit then some (digitsVal cs)
  else
    let intPart := cs.takeWhile Char.isDigit
    let rest := cs.dropWhile Char.isDigit
    match rest with
    | '.' :: frac =>
      if frac.all Char.isDigit then
        if intPart.isEmpty && frac.isEmpty then none
        else some ((digitsVal intPart : ℚ) + (digitsVal frac : ℚ) / (10 ^ frac.length))
      else none
    | _ => none

/-- Maximal leading run of ASCII digits and the remainder (the deterministic
behaviour of a greedy `[0-9]*` followed by a non-digit literal). -/
def digitRun (cs : List Char) : List Char × List Char :=
  (cs.takeWhile Char.isDigit, cs.dropWhile Char.isDigit)

/-- Model of `RE_UNITS['Elevation'] = re.compile(r"([0-9]*),([0-9]*)'")` applied
with `re.match` (anchored prefix match): both groups on success. -/
def matchElevation (s : String) : Option (String × String) :=
  let p1 := digitRun s.toList
  match p1.2 with
  | ',' :: r2 =>
    let p2 := digitRun r2
    match p2.2 with
    | c :: _ => if c = '\'' then some (String.mk p1.1, String.mk p2.1) else none
    | [] => none
  | _ => none

/-- First alternative `[0-9]*u` of the quote patterns: succeeds exactly when the
character after the maximal leading digit run is the unit `u` (backtracking to
a shorter run cannot help because `u` is never a digit). -/
def matchAlt1 (u : Char) (cs : List Char) : Option (List Char) :=
  let p := digitRun cs
  match p.2 with
  | c :: _ => if c = u then some p.1 else none
  | [] => none

/-- One backtracking attempt of the second alternative `[0-9]*.[0-9]*u` with
the first digit group fixed to length `k`: group is
`cs.take k ++ [any non-newline char] ++ maximal digit run`, followed by `u`. -/
def tryAlt2At (u : Char) (cs : List Char) (k : Nat) : Option (List Char) :=
  match cs.drop k with
  | c :: r2 =>
    if c = '\n' then none
    else
      let p := digitRun r2
      match p.2 with
      | c2 :: _ => if c2 = u then some (cs.take k ++ c :: p.1) else none
      | [] => none
  | [] => none

/-- Greedy backtracking over the first digit group of the second alternative:
lengths are tried from `k` downwards, the first success wins (Python's
leftmost-greedy order). -/
def matchAlt2From (u : Char) (cs : List Char) : Nat → Option (List Char)
  | 0 => tryAlt2At u cs 0
  | k + 1 =>
    match tryAlt2At u cs (k + 1) with
    | some g => some g
    | none => matchAlt2From u cs k

/-- Model of `re.match` for `RE_UNITS['"']` and `RE_UNITS['\'']`, i.e. the
pattern `([0-9]*|[0-9]*.[0-9]*)u`: the first alternative is preferred, the
second backtracks greedily.  Returns group 1 on success. -/
def matchQuote (u : Char) (s : String) : Option String :=
  match matchAlt1 u s.toList with
  | some g => some (String.mk g)
  | none => (matchAlt2From u s.toList (digitRun s.toList).1.length).map String.mk

/-- Model of `re.match` for `RE_UNITS['°'] = re.compile(r"([0-9]*)°")`. -/
def matchDeg (s : String) : Option String :=
  (matchAlt1 '°' s.toList).map String.mk

/-- Dispatch on `RE_UNITS[field_unit]` for the non-Elevation branch of
`convert_to_numeric` (the table only ever holds the three unit symbols). -/
def reUnitMatch (field_unit : Char) (s : String) : Option String :=
  if field_unit = '°' then matchDeg s else matchQuote field_unit s

/-- Literal translation of `NUMERIC_FIELDS` in scrape.py. -/
def NUMERIC_FIELDS : List String :=
  ["Elevation", "Depth", "Width", "New Snow Depth", "Slope Angle"]

/-- Literal translation of `FIELD_UNITS` in scrape.py (canonical unit symbol
per numeric field). -/
def FIELD_UNITS : List (String × Char) :=
  [("Elevation", '\''), ("Depth", '\"'), ("Width", '\''),
   ("Slope Angle", '°'), ("New Snow Depth", '\"')]

/-- Characters that are regex metacharacters when used as a one-character
pattern; `re.sub(unit, ...)` with such a unit is outside the model. -/
def regexMetaChars : List Char :=
  ['.', '^', '$', '*', '+', '?', '\x7b', '\x7d', '[', ']', '(', ')', '\\', '|']

/-- Model of `re.sub(unit, field_unit, raw_string)` for a single-character
pattern `unit`: for a literal (non-metacharacter) unit this replaces every
occurrence; metacharacter patterns are not modelled (`none`). -/
def pyCharSub (c : Char) (rep : String) (s : String) : Option String :=
  if regexMetaChars.contains c then none
  else some (String.mk ((s.toList.map (fun a => if a = c then rep.toList else [a])).flatten))

/-- Magnitude extraction of `convert_to_numeric` after the optional unit
substitution: Elevation uses the special comma pattern
(`thousands*1000 + remainder`), every other field takes group 1 of
`RE_UNITS[field_unit]`.  A failed `match` is an `AttributeError`
(`m.group` on `None`); a non-numeric group is a `ValueError` from `float`. -/
def parse_magnitude (field : String) (field_unit : Char) (s : String) : Except PyErr ℚ :=
  if field = "Elevation" then
    match matchElevation s with
    | none => .error .attributeError
    | some g =>
      match pyFloat g.1, pyFloat g.2 with
      | some a, some b => .ok (a * 1000 + b)
      | _, _ => .error .valueError
  else
    match reUnitMatch field_unit s with
    | none => .error .attributeError
    | some g =>
      match pyFloat g with
      | some a => .ok a
      | none => .error .valueError

/-- Literal translation of `convert_to_inches` in scrape.py. -/
def convert_to_inches (l_feet : ℚ) : ℚ := l_feet * 12

/-- Model of `convert_to_numeric(raw_string, field)` in scrape.py.  The
argument is an `Option String` because the caller `read_field_entry` passes
`None` when the label lookup failed; `re.search` on `None` is a `TypeError`.
Returns `.ok none` for digit-free strings, otherwise determines the trailing
unit character, substitutes the canonical unit symbol on mismatch, parses the
magnitude, and multiplies by 12 (`convert_to_inches`) exactly when the
trailing character differed from the canonical unit. -/
def convert_to_numeric : Option String → String → Except PyErr (Option ℚ)
  | none, _ => .error .typeError
  | some raw, field =>
    if contains_digit raw = false then .ok none
    else
      match raw.toList.getLast? with
      | none => .error .indexError
      | some unit =>
        match FIELD_UNITS.lookup field with
        | none => .error .keyError
        | some field_unit =>
          let subbed : Option String :=
            if unit ≠ field_unit then pyCharSub unit (String.mk [field_unit]) raw
            else some raw
          match subbed with
          | none => .error .unmodeledRegex
          | some rs =>
            match parse_magnitude field field_unit rs with
            | .error e => .error e
            | .ok num =>
              .ok (some (if unit ≠ field_unit then convert_to_inches num else num))

/-- Values a field read can produce (a text entry or a normalised number). -/
inductive PyVal
  | str (s : String)
  | num (q : ℚ)
deriving DecidableEq, Repr

/-- Model of `read_field_entry(field, soup)` in scrape.py.  The document
oracle `findEntry` models `soup.find(string=field).parent.next_sibling
.next_sibling.string`, collapsed to `none` when any step of that chain fails
(the code catches every exception of the chain and sets the entry to `None`).
The numeric conversion happens OUTSIDE the try block, so its exceptions
propagate. -/
def read_field_entry (field : String) (findEntry : String → Option String) :
    Except PyErr (Option PyVal) :=
  let field_entry := findEntry field
  if NUMERIC_FIELDS.contains field then
    match convert_to_numeric field_entry field with
    | .error e => .error e
    | .ok q => .ok (q.map PyVal.num)
  else
    .ok (field_entry.map PyVal.str)

/-! ## Multi-entry field reading (`read_multiple_entries`) -/

/-- Loop body of `read_multiple_entries`: the current value node's text is
appended, then the traversal steps `next_sibling.next_sibling` (two entries of
the remaining sibling chain) and stops when the newly reached text is longer
than 20 characters.  Running off the end of the sibling chain raises
(`AttributeError` on a `None` sibling), as in the source. -/
def entriesLoop : String → List String → Except PyErr (List String)
  | cur, _ :: b :: rest =>
    if b.length > 20 then .ok [cur]
    else (entriesLoop b rest).map (fun t => cur :: t)
  | _, _ => .error .attributeError

/-- Anchor selection of `read_multiple_entries`: "Red Flags" anchors at
occurrence index 1 (`soup.find_all(string=field)[1]`, `IndexError` if
missing); every other field anchors at occurrence index 0
(`soup.find(string=field)`, `AttributeError` on `None.parent` if missing).
The oracle `findAll` maps a label to the list of sibling chains, one per
occurrence of the label text, each chain holding the texts of the siblings
following that occurrence's parent node. -/
def anchorChain (field : String) (findAll : String → List (List String)) :
    Except PyErr (List String) :=
  if field = "Red Flags" then
    match (findAll field)[1]? with
    | some c => .ok c
    | none => .error .indexError
  else
    match (findAll field)[0]? with
    | some c => .ok c
    | none => .error .attributeError

/-- Model of `read_multiple_entries(field, soup)` in scrape.py: choose the
anchor occurrence, step `next_sibling.next_sibling` to the first value node,
then run the collection loop. -/
def read_multiple_entries (field : String) (findAll : String → List (List String)) :
    Except PyErr (List String) :=
  match anchorChain field findAll with
  | .error e => .error e
  | .ok chain =>
    match chain with
    | _ :: b :: rest => entriesLoop b rest
    | _ => .error .attributeError

/-- Value nodes of a sibling chain: the traversal steps two siblings at a
time, so the visited texts sit at odd positions of the chain. -/
def valuesOf : List String → List String
  | _ :: b :: rest => b :: valuesOf rest
  | _ => []

/-- Modelled from the spec (refinement comparator for the multi-entry loop):
collect the current value and each following value in turn, stopping without
collecting as soon as the next value is strictly longer than 20 characters;
exhausting the values before that is a failure of the traversal. -/
def specCollect : String → List String → Except PyErr (List String)
  | _, [] => .error .attributeError
  | v, w :: ws =>
    if w.length > 20 then .ok [v]
    else (specCollect w ws).map (fun t => v :: t)

/-- Modelled from the spec (refinement comparator for `read_multiple_entries`):
anchor at the second label occurrence for "Red Flags" and the first otherwise,
take the value two siblings after the anchor's parent, and collect values with
the strictly-greater-than-20 stopping rule, phrased over the value sequence. -/
def readMultipleSpec (field : String) (findAll : String → List (List String)) :
    Except PyErr (List String) :=
  match anchorChain field findAll with
  | .error e => .error e
  | .ok chain =>
    match chain with
    | _ :: b :: rest => specCollect b (valuesOf rest)
    | _ => .error .attributeError

/-! ## Pagination harvester (`get_observation_table`) -/

/-- Zero-padding to two digits, as the `:02d` format specifier. -/
def pad2 (n : Nat) : String := if n < 10 then "0" ++ toString n else toString n

/-- Zero-padding to four digits, as `str(date)` renders years. -/
def pad4 (n : Nat) : String :=
  if n < 10 then "000" ++ toString n
  else if n < 100 then "00" ++ toString n
  else if n < 1000 then "0" ++ toString n
  else toString n

/-- Calendar date, modelling `datetime.date`. -/
structure PyDate where
  year : Nat
  month : Nat
  day : Nat
deriving DecidableEq, Repr

/-- Gregorian leap-year rule (as `datetime` uses). -/
def isLeap (y : Nat) : Bool := y % 4 = 0 && (y % 100 ≠ 0 || y % 400 = 0)

/-- Number of days in a month of a given year. -/
def daysInMonth (y m : Nat) : Nat :=
  if m = 2 then (if isLeap y then 29 else 28)
  else if m = 4 ∨ m = 6 ∨ m = 9 ∨ m = 11 then 30
  else 31

/-- Model of `date + datetime.timedelta(days=1)`. -/
def succDay (d : PyDate) : PyDate :=
  if d.day < daysInMonth d.year d.month then ⟨d.year, d.month, d.day + 1⟩
  else if d.month < 12 then ⟨d.year, d.month + 1, 1⟩
  else ⟨d.year + 1, 1, 1⟩

/-- Model of `date <= date` on `datetime.date` (lexicographic). -/
def dateLe (a b : PyDate) : Bool :=
  a.year < b.year ||
    (a.year = b.year && (a.month < b.month || (a.month = b.month && a.day ≤ b.day)))

/-- Auxiliary for `splitOnChar`: the accumulator holds the current piece in
reverse order. -/
def splitCharAux (c : Char) : List Char → List Char → List String
  | [], acc => [String.mk acc.reverse]
  | a :: rest, acc =>
    if a = c then String.mk acc.reverse :: splitCharAux c rest []
    else splitCharAux c rest (a :: acc)

/-- Model of Python `s.split(sep)` for a one-character separator (the only
shape the scraper uses: `'@'`, `'&'`, `'.'`, `'_'`): splits at every
occurrence, keeping empty pieces, and yields `[""]` on the empty string. -/
def splitOnChar (c : Char) (s : String) : List String :=
  splitCharAux c s.toList []

/-- Decimal reading of an unsigned numeral string, `none` when empty or
containing a non-digit (the failure `strptime` raises on a malformed
component). -/
def strToNat (s : String) : Option Nat :=
  let cs := s.toList
  if cs.isEmpty then none
  else if cs.all Char.isDigit then some (digitsVal cs) else none

/-- Model of `datetime.datetime.strptime(s, "%Y_%m_%d").date()`: three
underscore-separated decimal components with calendar validation; a parse
failure is a `ValueError`. -/
def parseDate (s : String) : Option PyDate :=
  match (splitOnChar '_' s).map strToNat with
  | [some y, some m, some d] =>
    if 1 ≤ m && m ≤ 12 && 1 ≤ d && d ≤ daysInMonth y m then some ⟨y, m, d⟩ else none
  | _ => none

/-- Model of `str(date).replace('-','_')`, the `YYYY_MM_DD` key format. -/
def formatDateU (d : PyDate) : String :=
  pad4 d.year ++ "_" ++ pad2 d.month ++ "_" ++ pad2 d.day

/-- Literal translation of `generate_observation_url(start_date, end_date)`. -/
def generate_observation_url (start_date end_date : PyDate) : String :=
  "https://utahavalanchecenter.org/observations?rid=All&term=All&fodv%5Bmin%5D%5Bdate%5D="
    ++ pad2 start_date.month ++ "/" ++ pad2 start_date.day ++ "/" ++ toString start_date.year
    ++ "&fodv%5Bmax%5D%5Bdate%5D="
    ++ pad2 end_date.month ++ "/" ++ pad2 end_date.day ++ "/" ++ toString end_date.year

/-- URL requested for a page index: page 0 is the bare query URL, later pages
append `&page=<n>` (the `if page_num != 0` branch of the loop). -/
def dataUrl (base : String) (page : Nat) : String :=
  if page = 0 then base else base ++ "&page=" ++ toString page

/-- Loop body of `get_observation_table`: fetch-and-parse each page in turn
(via the `get_page_obs` oracle `f`, whose `none` models any exception), stop
on the first failure, and return everything accumulated so far.  The `while
True` loop is given fuel to stay total; every theorem supplies enough fuel to
reach the first failing page. -/
def obsLoop {α : Type} (f : String → Option (List α)) (base : String) :
    Nat → Nat → List α
  | 0, _ => []
  | fuel + 1, page =>
    match f (dataUrl base page) with
    | none => []
    | some rows => rows ++ obsLoop f base fuel (page + 1)

/-- Model of `get_observation_table(start_date, end_date)` in scrape.py:
builds the query URL and walks pages 0, 1, 2, … until the first fetch/parse
failure, concatenating the page rows. -/
def get_observation_table {α : Type} (f : String → Option (List α))
    (start_date end_date : PyDate) (fuel : Nat) : List α :=
  obsLoop f (generate_observation_url start_date end_date) fuel 0

/-! ## Batch harvests (`get_avalanche_data`, `get_observation_data`,
`get_forecasts`) -/

/-- One iteration of the per-extension loop shared by `get_avalanche_data`
and `get_observation_data`: a successful read appends the record to `data`,
a failure appends the extension itself to `err`. -/
def scrapeStep {α β : Type} (reader : α → Except PyErr β)
    (acc : List β × List α) (e : α) : List β × List α :=
  match reader e with
  | .ok r => (acc.1 ++ [r], acc.2)
  | .error _ => (acc.1, acc.2 ++ [e])

/-- The extension loop of `get_avalanche_data` (scrape.py lines 155-160):
`reader` models `read_avalanche_observation(AVY_URL + extension)`. -/
def get_avalanche_data_loop {α β : Type} (reader : α → Except PyErr β)
    (exts : List α) : List β × List α :=
  exts.foldl (scrapeStep reader) ([], [])

/-- The extension loop of `get_observation_data` (scrape.py lines 253-258):
`reader` models `read_general_observation(AVY_URL + extension)`. -/
def get_observation_data_loop {α β : Type} (reader : α → Except PyErr β)
    (exts : List α) : List β × List α :=
  exts.foldl (scrapeStep reader) ([], [])

/-- Records successfully read from a list of extensions, in order. -/
def readSuccesses {α β : Type} (reader : α → Except PyErr β) (exts : List α) : List β :=
  exts.filterMap fun e => match reader e with | .ok r => some r | .error _ => none

/-- Extensions whose read raised, in order. -/
def readFailures {α β : Type} (reader : α → Except PyErr β) (exts : List α) : List α :=
  exts.filter fun e => match reader e with | .ok _ => false | .error _ => true

/-- Model of the day loop of `get_forecasts(start_date, end_date, region)`:
`while date <= TODAY`, one `get_forecast(date, region)` per day with NO
try/except, so the first failing day propagates its exception and discards
everything accumulated.  `gf` is the per-day oracle; fuel keeps it total. -/
def forecastLoop {α : Type} (gf : PyDate → Except PyErr α) (today : PyDate) :
    Nat → PyDate → Except PyErr (List α)
  | 0, _ => .error .outOfFuel
  | fuel + 1, date =>
    if dateLe date today then
      match gf date with
      | .error e => .error e
      | .ok row =>
        match forecastLoop gf today fuel (succDay date) with
        | .error e => .error e
        | .ok rest => .ok (row :: rest)
    else .ok []

/-- Model of `get_forecasts` in scrape.py (its loop runs to `TODAY`). -/
def get_forecasts_model {α : Type} (gf : PyDate → Except PyErr α)
    (start today : PyDate) (fuel : Nat) : Except PyErr (List α) :=
  forecastLoop gf today fuel start

/-! ## Colour classification and the danger rose -/

/-- Literal translation of the reference palette of `classify_danger`. -/
def colors : List (Nat × (ℤ × ℤ × ℤ)) :=
  [(1, (0, 255, 0)), (2, (255, 255, 0)), (3, (255, 128, 0)),
   (4, (255, 0, 0)), (5, (0, 0, 0))]

/-- Manhattan distance between RGB triples, as the `manhattan` lambda. -/
def manhattan (x y : ℤ × ℤ × ℤ) : Nat :=
  (x.1 - y.1).natAbs + (x.2.1 - y.2.1).natAbs + (x.2.2 - y.2.2).natAbs

/-- Model of Python `min(distances, key=distances.get)` over an
insertion-ordered dict rendered as a list: the first entry with the minimal
value wins (replacement only on strictly smaller values). -/
def pyMinByVal : (Nat × Nat) → List (Nat × Nat) → (Nat × Nat)
  | best, [] => best
  | best, p :: rest => pyMinByVal (if p.2 < best.2 then p else best) rest

/-- Model of `classify_danger(rgb_tuple)` in scrape.py: nearest palette entry
by Manhattan distance, first minimal entry in palette iteration order. -/
def classify_danger (rgb : ℤ × ℤ × ℤ) : Nat :=
  match colors.map (fun kv => (kv.1, manhattan kv.2 rgb)) with
  | [] => 0
  | d :: ds => (pyMinByVal d ds).1

/-- Palette distance of a danger key for a sampled RGB triple (lookup into
the `colors` table). -/
def dangerDist (k : Nat) (rgb : ℤ × ℤ × ℤ) : Nat :=
  manhattan ((colors.lookup k).getD (0, 0, 0)) rgb

/-- Literal translation of the `rose_coord` table of `get_danger_rose`
(24 hand-calibrated (aspect, elevation) → pixel entries, insertion order). -/
def rose_coord : List ((String × String) × (Nat × Nat)) :=
  [(("N", "High"), (200, 130)),
   (("NE", "High"), (225, 135)),
   (("NW", "High"), (175, 135)),
   (("W", "High"), (165, 155)),
   (("E", "High"), (235, 155)),
   (("SW", "High"), (175, 175)),
   (("S", "High"), (200, 185)),
   (("SE", "High"), (225, 175)),
   (("N", "Mid"), (200, 100)),
   (("NE", "Mid"), (250, 115)),
   (("NW", "Mid"), (150, 115)),
   (("W", "Mid"), (125, 165)),
   (("E", "Mid"), (275, 165)),
   (("SW", "Mid"), (145, 215)),
   (("S", "Mid"), (200, 230)),
   (("SE", "Mid"), (255, 215)),
   (("N", "Low"), (200, 65)),
   (("NE", "Low"), (280, 100)),
   (("NW", "Low"), (120, 100)),
   (("W", "Low"), (75, 170)),
   (("E", "Low"), (325, 170)),
   (("SW", "Low"), (110, 250)),
   (("S", "Low"), (200, 280)),
   (("SE", "Low"), (290, 250))]

/-- Model of `get_danger_rose(forecast_url)` in scrape.py.  `rose_url` models
the guarded `get_rose_url` call: `none` is the caught exception path that
returns `(None, None)`.  When the rose image is obtained, `pix` models
`rose_img.load()[x, y][0:3]` and every one of the 24 coordinates is sampled
and classified, in table order. -/
def get_danger_rose (rose_url : Option String) (pix : Nat × Nat → ℤ × ℤ × ℤ) :
    Option (List ((String × String) × Nat)) × Option String :=
  match rose_url with
  | none => (none, none)
  | some url =>
    (some (rose_coord.map (fun p => (p.1, classify_danger (pix p.2)))), some url)

/-- The 24 (aspect, elevation) keys of the danger rose, in table order. -/
def roseKeys : List (String × String) :=
  [("N", "High"), ("NE", "High"), ("NW", "High"), ("W", "High"), ("E", "High"),
   ("SW", "High"), ("S", "High"), ("SE", "High"),
   ("N", "Mid"), ("NE", "Mid"), ("NW", "Mid"), ("W", "Mid"), ("E", "Mid"),
   ("SW", "Mid"), ("S", "Mid"), ("SE", "Mid"),
   ("N", "Low"), ("NE", "Low"), ("NW", "Low"), ("W", "Low"), ("E", "Low"),
   ("SW", "Low"), ("S", "Low"), ("SE", "Low")]

/-- The eight compass points of the rose. -/
def aspectsList : List String := ["N", "NE", "NW", "W", "E", "SW", "S", "SE"]

/-- The three elevation bands of the rose. -/
def bandsList : List String := ["High", "Mid", "Low"]

/-! ## Storage (`save_data` key format and `update_data`) -/

/-- Result of an `update_data` run: the returned table rows and the filename
the updated table was written to (`none` when the early no-op return fires
and nothing is rewritten). -/
structure UpdateResult (α : Type) where
  rows : List α
  savedFilename : Option String
deriving DecidableEq, Repr

/-- Model of `update_data(filename)` in scrape.py.  `load` models
`load_data`; `avy`, `obs`, `fore` model the three harvesters
(`get_avalanche_data`, `get_observation_data`, `get_forecasts`) as oracles
from (start_date, TODAY) to the new rows.  The function splits the filename
key on `@`, `&` and `.`, parses the stored end date, bumps it by one day,
returns the loaded table unchanged when the bumped date equals today, and
otherwise appends the newly harvested rows and rewrites under a key whose end
date is today.  Note the source's literal comparisons: `'./forecast'` and
`'./avalanche'` select the harvester, but plain `'forecast'` selects the
region-bearing rewrite format. -/
def update_data {α : Type} (filename : String) (today : PyDate)
    (load : String → List α) (avy obs fore : PyDate → PyDate → List α) :
    Except PyErr (UpdateResult α) :=
  let parts := splitOnChar '@' filename
  let data_type := parts.headD ""
  let regionE : Except PyErr String :=
    if data_type = "./forecast" then
      match parts[1]? with
      | some r => .ok r
      | none => .error .indexError
    else .ok ""
  match regionE with
  | .error e => .error e
  | .ok region =>
    let lastPart := parts.getLastD ""
    let amp := splitOnChar '&' lastPart
    let start_date := amp.headD ""
    match amp[1]? with
    | none => .error .indexError
    | some endPart =>
      let end_str := (splitOnChar '.' endPart).headD ""
      let old_data := load filename
      match parseDate end_str with
      | none => .error .valueError
      | some endD =>
        let end_date := succDay endD
        if end_date = today then .ok ⟨old_data, none⟩
        else
          let new_data :=
            if data_type = "./forecast" then fore end_date today
            else if data_type = "./avalanche" then avy end_date today
            else obs end_date today
          let updated := old_data ++ new_data
          let endNew := formatDateU today
          let newFilename :=
            if data_type = "forecast" then
              data_type ++ "@" ++ region ++ "@" ++ start_date ++ "&" ++ endNew ++ ".csv"
            else
              data_type ++ "@" ++ start_date ++ "&" ++ endNew ++ ".csv"
          .ok ⟨updated, some newFilename⟩

/-! ## Helper lemmas -/

/-- Python's `min` with a key function keeps the first element attaining the
minimum: fully unfolded characterisation for the five-entry danger palette. -/
theorem pyMin5_first (d1 d2 d3 d4 d5 : Nat) :
    (pyMinByVal (1, d1) [(2, d2), (3, d3), (4, d4), (5, d5)] = (1, d1) ∧
       d1 ≤ d2 ∧ d1 ≤ d3 ∧ d1 ≤ d4 ∧ d1 ≤ d5) ∨
    (pyMinByVal (1, d1) [(2, d2), (3, d3), (4, d4), (5, d5)] = (2, d2) ∧
       d2 < d1 ∧ d2 ≤ d3 ∧ d2 ≤ d4 ∧ d2 ≤ d5) ∨
    (pyMinByVal (1, d1) [(2, d2), (3, d3), (4, d4), (5, d5)] = (3, d3) ∧
       d3 < d1 ∧ d3 < d2 ∧ d3 ≤ d4 ∧ d3 ≤ d5) ∨
    (pyMinByVal (1, d1) [(2, d2), (3, d3), (4, d4), (5, d5)] = (4, d4) ∧
       d4 < d1 ∧ d4 < d2 ∧ d4 < d3 ∧ d4 ≤ d5) ∨
    (pyMinByVal (1, d1) [(2, d2), (3, d3), (4, d4), (5, d5)] = (5, d5) ∧
       d5 < d1 ∧ d5 < d2 ∧ d5 < d3 ∧ d5 < d4) := by
  simp only [pyMinByVal]
  split_ifs <;>
    first
    | exact Or.inl ⟨rfl, by omega, by omega, by omega, by omega⟩
    | exact Or.inr (Or.inl ⟨rfl, by omega, by omega, by omega, by omega⟩)
    | exact Or.inr (Or.inr (Or.inl ⟨rfl, by omega, by omega, by omega, by omega⟩))
    | exact Or.inr (Or.inr (Or.inr (Or.inl ⟨rfl, by omega, by omega, by omega, by omega⟩)))
    | exact Or.inr (Or.inr (Or.inr (Or.inr ⟨rfl, by omega, by omega, by omega, by omega⟩)))

/-- The shared extension loop accumulates successful reads and failing
extensions, appended to whatever the accumulator already holds. -/
theorem foldl_scrapeStep {α β : Type} (reader : α → Except PyErr β) :
    ∀ (exts : List α) (d : List β) (er : List α),
      exts.foldl (scrapeStep reader) (d, er) =
        (d ++ readSuccesses reader exts, er ++ readFailures reader exts)
  | [], d, er => by simp [readSuccesses, readFailures]
  | a :: l, d, er => by
    cases h : reader a with
    | ok r =>
      simp only [List.foldl_cons, scrapeStep, h, readSuccesses, readFailures,
        List.filterMap_cons, List.filter_cons]
      rw [foldl_scrapeStep reader l (d ++ [r]) er]
      simp [readSuccesses, readFailures, h]
    | error e =>
      simp only [List.foldl_cons, scrapeStep, h, readSuccesses, readFailures,
        List.filterMap_cons, List.filter_cons]
      rw [foldl_scrapeStep reader l d (er ++ [a])]
      simp [readSuccesses, readFailures, h]

/-- Recursion principle stepping two list entries at a time, matching the
`next_sibling.next_sibling` traversal. -/
theorem twoStepList {motive : List String → Prop} (h0 : motive [])
    (h1 : ∀ a, motive [a]) (h2 : ∀ a b l, motive l → motive (a :: b :: l)) :
    ∀ l, motive l
  | [] => h0
  | [a] => h1 a
  | a :: b :: l => h2 a b l (twoStepList h0 h1 h2 l)

/-- The sibling-stepping collection loop computes exactly the spec-side
collection over the value sequence (every second sibling). -/
theorem entriesLoop_eq_specCollect :
    ∀ (sibs : List String) (cur : String),
      entriesLoop cur sibs = specCollect cur (valuesOf sibs) := by
  refine twoStepList ?_ ?_ ?_
  · intro cur; rfl
  · intro a cur; rfl
  · intro a b l ih cur
    simp only [entriesLoop, valuesOf, specCollect]
    rw [ih b]

/-- Page-walk characterisation of the observation-table loop: with all pages
before `n` succeeding and page `n` failing, the loop returns the
concatenation of the successful pages (indices counted from `page`). -/
theorem obsLoop_spec {α : Type} (f : String → Option (List α)) (base : String)
    (rs : Nat → List α) :
    ∀ (n page fuel : Nat), n < fuel →
      (∀ k, k < n → f (dataUrl base (page + k)) = some (rs (page + k))) →
      f (dataUrl base (page + n)) = none →
      obsLoop f base fuel page = ((List.range n).map (fun k => rs (page + k))).flatten := by
  intro n
  induction n with
  | zero =>
    intro page fuel hfuel _ hfail
    match fuel, hfuel with
    | m + 1, _ =>
      simp only [obsLoop]
      rw [show page + 0 = page from rfl] at hfail
      rw [hfail]
      simp
  | succ n ih =>
    intro page fuel hfuel hok hfail
    match fuel, hfuel with
    | m + 1, hfuel =>
      have h0 : f (dataUrl base page) = some (rs page) := by
        have := hok 0 (Nat.succ_pos n)
        simpa using this
      simp only [obsLoop, h0]
      rw [ih (page + 1) m (by omega)
        (fun k hk => by
          have := hok (k + 1) (by omega)
          rwa [show page + (k + 1) = page + 1 + k by omega] at this)
        (by rwa [show page + 1 + n = page + (n + 1) by omega])]
      rw [List.range_succ_eq_map]
      simp only [List.map_cons, List.map_map, List.flatten_cons, Nat.add_zero]
      congr 1
      refine congrArg List.flatten (List.map_congr_left ?_)
      intro k _
      simp only [Function.comp_apply]
      congr 1
      omega

/-! ## Claim theorems -/

/-- C1 counterexample: the spec's second concrete check fails on the code.
`convert_to_numeric("7'6\"", 'Width')` substitutes the canonical foot glyph
(giving `7'6'`), but group 1 of `([0-9]*|[0-9]*.[0-9]*)'` under `re.match`
is just `7`, so the result is 7×12 = 84, not 7.5×12 = 90. -/
theorem claim_C1_counterexample :
    convert_to_numeric (some "7'6\"") "Width" = .ok (some 84) ∧
    convert_to_numeric (some "7'6\"") "Width" ≠ .ok (some 90) := by
  have h : convert_to_numeric (some "7'6\"") "Width" =
      .ok (some (((7 : ℕ) : ℚ) * 12)) := rfl
  rw [h]
  constructor
  · norm_num
  · intro hc
    rw [Except.ok.injEq, Option.some.injEq] at hc
    norm_num at hc

/-- C1 (amended): the Elevation check holds as specified
(`"7,500'"` parses as 7*1000+500 = 7500), while the Width check yields 84:
the canonical glyph is substituted first (`7'6"` becomes `7'6'`), the
magnitude parsed under the substituted glyph is `7` (not 7.5), and that
parsed magnitude — not the original text — is what gets scaled by 12. -/
theorem claim_C1_amended :
    convert_to_numeric (some "7,500'") "Elevation" = .ok (some 7500) ∧
    convert_to_numeric (some "7'6\"") "Width" = .ok (some 84) ∧
    pyCharSub '\"' (String.mk ['\'']) "7'6\"" = some "7'6'" ∧
    matchQuote '\'' "7'6'" = some "7" ∧
    (84 : ℚ) = 12 * 7 := by
  have he : convert_to_numeric (some "7,500'") "Elevation" =
      .ok (some (((7 : ℕ) : ℚ) * 1000 + ((500 : ℕ) : ℚ))) := rfl
  have hw : convert_to_numeric (some "7'6\"") "Width" =
      .ok (some (((7 : ℕ) : ℚ) * 12)) := rfl
  rw [he, hw]
  refine ⟨by norm_num, by norm_num, rfl, rfl, by norm_num⟩

/-- C2 counterexample: `read_field_entry` DOES raise to its caller for
numeric fields, because `convert_to_numeric` is invoked outside the try
block: an absent Elevation entry raises `TypeError`
(`re.search` on `None`), and a digit-bearing Elevation entry with no comma
fails `RE_UNITS['Elevation']` and raises `AttributeError`
(`None.group`). -/
theorem claim_C2_counterexample :
    read_field_entry "Elevation" (fun _ => none) = .error .typeError ∧
    read_field_entry "Elevation" (fun _ => some "7500'") = .error .attributeError :=
  ⟨rfl, rfl⟩

/-- C2 (amended): for non-numeric fields a label/sibling-chain miss resolves
to Absent and the read never raises; for numeric fields an entry containing
no digit resolves to Absent; but an absent numeric entry raises `TypeError`
out of `read_field_entry` (the exception is only contained one level up, in
`read_general_observation`). -/
theorem claim_C2_amended :
    (∀ (field : String) (doc : String → Option String),
       NUMERIC_FIELDS.contains field = false →
       read_field_entry field doc = .ok ((doc field).map PyVal.str)) ∧
    (∀ (field : String) (doc : String → Option String) (s : String),
       NUMERIC_FIELDS.contains field = true → doc field = some s →
       contains_digit s = false →
       read_field_entry field doc = .ok none) ∧
    (∀ (field : String) (doc : String → Option String),
       NUMERIC_FIELDS.contains field = true → doc field = none →
       read_field_entry field doc = .error .typeError) := by
  refine ⟨?_, ?_, ?_⟩
  · intro field doc h
    unfold read_field_entry
    rw [h]
    simp
  · intro field doc s hnum hdoc hdig
    unfold read_field_entry
    rw [hnum, hdoc]
    simp only [convert_to_numeric, hdig]
    simp
  · intro field doc hnum hdoc
    unfold read_field_entry
    rw [hnum, hdoc]
    simp [convert_to_numeric]

/-- Witness for C2 (amended): a missing non-numeric label resolves to
Absent, a digit-free Depth entry resolves to Absent, and a missing Width
entry raises `TypeError`. -/
theorem claim_C2_amended_witness :
    read_field_entry "Comments" (fun _ => none) = .ok none ∧
    read_field_entry "Depth" (fun _ => some "unknown") = .ok none ∧
    read_field_entry "Width" (fun _ => none) = .error .typeError := by
  refine ⟨?_, ?_, ?_⟩
  · have h := claim_C2_amended.1 "Comments" (fun _ => none) (by decide)
    simpa using h
  · exact claim_C2_amended.2.1 "Depth" (fun _ => some "unknown") "unknown"
      (by decide) rfl (by decide)
  · exact claim_C2_amended.2.2 "Width" (fun _ => none) (by decide) rfl

/-- C3: the pagination harvester requests pages 0, 1, 2, … and the first
page whose fetch or parse fails terminates the loop, returning exactly the
rows accumulated from all earlier pages, with no error raised (the result is
a plain row list). -/
theorem claim_C3 {α : Type} (f : String → Option (List α))
    (start_date end_date : PyDate) (rs : Nat → List α) (n fuel : Nat)
    (hfuel : n < fuel)
    (hok : ∀ k, k < n →
      f (dataUrl (generate_observation_url start_date end_date) k) = some (rs k))
    (hfail : f (dataUrl (generate_observation_url start_date end_date) n) = none) :
    get_observation_table f start_date end_date fuel = ((List.range n).map rs).flatten := by
  unfold get_observation_table
  have h := obsLoop_spec f (generate_observation_url start_date end_date) rs n 0 fuel hfuel
    (fun k hk => by simpa using hok k hk) (by simpa using hfail)
  simpa using h

/-- Witness for C3: a 3-page source failing at page 2 yields exactly the
rows of pages 0 and 1; a source failing immediately at page 0 yields the
empty row collection. -/
theorem claim_C3_witness :
    get_observation_table
        (fun u => if u = dataUrl (generate_observation_url ⟨2023, 12, 1⟩ ⟨2024, 1, 31⟩) 2
                  then none else some [u])
        ⟨2023, 12, 1⟩ ⟨2024, 1, 31⟩ 10 =
      [dataUrl (generate_observation_url ⟨2023, 12, 1⟩ ⟨2024, 1, 31⟩) 0,
       dataUrl (generate_observation_url ⟨2023, 12, 1⟩ ⟨2024, 1, 31⟩) 1] ∧
    get_observation_table (fun _ => (none : Option (List String)))
        ⟨2023, 12, 1⟩ ⟨2024, 1, 31⟩ 10 = [] := by
  constructor
  · have h := claim_C3
      (fun u => if u = dataUrl (generate_observation_url ⟨2023, 12, 1⟩ ⟨2024, 1, 31⟩) 2
                then none else some [u])
      ⟨2023, 12, 1⟩ ⟨2024, 1, 31⟩
      (fun k => [dataUrl (generate_observation_url ⟨2023, 12, 1⟩ ⟨2024, 1, 31⟩) k])
      2 10 (by omega)
      (fun k hk => by interval_cases k <;> decide)
      (by decide)
    exact h.trans rfl
  · have h := claim_C3 (fun _ => (none : Option (List String)))
      ⟨2023, 12, 1⟩ ⟨2024, 1, 31⟩ (fun _ => []) 0 10 (by omega)
      (fun k hk => absurd hk (by omega)) rfl
    exact h.trans rfl

/-- C4 counterexample: the per-day forecast harvest has no per-item
containment at all: with day 2026-10-11 succeeding and day 2026-10-12
failing, `get_forecasts` propagates the exception, returning neither the
accumulated rows nor an error list. -/
theorem claim_C4_counterexample :
    get_forecasts_model
        (fun d => if d = ⟨2026, 10, 12⟩ then .error .typeError else .ok "row")
        ⟨2026, 10, 11⟩ ⟨2026, 10, 12⟩ 5 = .error .typeError ∧
    get_forecasts_model
        (fun d => if d = ⟨2026, 10, 12⟩ then .error .typeError else .ok "row")
        ⟨2026, 10, 11⟩ ⟨2026, 10, 12⟩ 5 ≠ .ok ["row"] := by
  have h : get_forecasts_model
      (fun d => if d = ⟨2026, 10, 12⟩ then .error .typeError else .ok "row")
      ⟨2026, 10, 11⟩ ⟨2026, 10, 12⟩ 5 = .error .typeError := rfl
  refine ⟨h, ?_⟩
  rw [h]
  intro hc
  cases hc

/-- C4 (amended): per-item failure containment — an error list keyed by the
originating extension returned alongside the successes, with the remaining
items still processed — holds for the avalanche-report and
general-observation batch harvests, but NOT for the per-day forecast
harvest, which propagates the first failing day's exception. -/
theorem claim_C4_amended :
    (∀ (α β : Type) (reader : α → Except PyErr β) (exts : List α),
       get_avalanche_data_loop reader exts =
         (readSuccesses reader exts, readFailures reader exts)) ∧
    (∀ (α β : Type) (reader : α → Except PyErr β) (exts : List α),
       get_observation_data_loop reader exts =
         (readSuccesses reader exts, readFailures reader exts)) ∧
    (∀ (β : Type) (gf : PyDate → Except PyErr β) (d today : PyDate) (e : PyErr) (fuel : Nat),
       gf d = .error e → dateLe d today = true →
       get_forecasts_model gf d today (fuel + 1) = .error e) := by
  refine ⟨?_, ?_, ?_⟩
  · intro α β reader exts
    have h := foldl_scrapeStep reader exts [] []
    simpa [get_avalanche_data_loop] using h
  · intro α β reader exts
    have h := foldl_scrapeStep reader exts [] []
    simpa [get_observation_data_loop] using h
  · intro β gf d today e fuel hgf hle
    simp [get_forecasts_model, forecastLoop, hle, hgf]

/-- C5: multi-entry reading anchors at the first occurrence of the label —
second for "Red Flags" — and from the anchor repeatedly steps two siblings,
collecting each value's text, stopping exactly when the next encountered
text is strictly longer than 20 characters (that text is not collected; a
text of exactly 20 characters is collected and traversal continues): the
code equals the spec-side collector over the value sequence, and the
concrete documents exercise the second-occurrence anchor, the 20-character
boundary and the first-occurrence anchor. -/
theorem claim_C5 :
    (∀ (field : String) (findAll : String → List (List String)),
       read_multiple_entries field findAll = readMultipleSpec field findAll) ∧
    read_multiple_entries "Red Flags"
        (fun _ => [["p", "DECOY", "p", "bbbbbbbbbbbbbbbbbbbbb"],
                   ["p", "A", "q", "aaaaaaaaaaaaaaaaaaaa", "r", "B", "s",
                    "bbbbbbbbbbbbbbbbbbbbb"]]) =
      .ok ["A", "aaaaaaaaaaaaaaaaaaaa", "B"] ∧
    read_multiple_entries "Snow Surface Conditions"
        (fun _ => [["p", "X", "q", "bbbbbbbbbbbbbbbbbbbbb"],
                   ["p", "DECOY", "q", "bbbbbbbbbbbbbbbbbbbbb"]]) =
      .ok ["X"] := by
  refine ⟨?_, rfl, rfl⟩
  intro field findAll
  unfold read_multiple_entries readMultipleSpec
  cases h : anchorChain field findAll with
  | error e => rfl
  | ok chain =>
    rcases chain with _ | ⟨a, _ | ⟨b, rest⟩⟩
    · rfl
    · rfl
    · exact entriesLoop_eq_specCollect rest b

/-- C6: whenever the danger-rose image is obtained, decoding returns a map
with exactly the 24 (aspect, elevation) keys — 8 compass points × 3
elevation bands, every key present regardless of how the sampled pixels
classify — and when the rose URL cannot be obtained the result is the
whole-rose failure `(None, None)`, never a partial map. -/
theorem claim_C6 :
    (∀ (url : String) (pix : Nat × Nat → ℤ × ℤ × ℤ),
       ∃ m, (get_danger_rose (some url) pix).1 = some m ∧
         m.map Prod.fst = roseKeys ∧
         m.length = 24 ∧
         (∀ a ∈ aspectsList, ∀ e ∈ bandsList, (a, e) ∈ m.map Prod.fst)) ∧
    (∀ pix, get_danger_rose none pix = (none, none)) := by
  constructor
  · intro url pix
    have hkeys :
        (rose_coord.map
          (fun p : (String × String) × (Nat × Nat) =>
            (p.1, classify_danger (pix p.2)))).map Prod.fst = roseKeys := rfl
    refine ⟨rose_coord.map
      (fun p : (String × String) × (Nat × Nat) => (p.1, classify_danger (pix p.2))),
      rfl, hkeys, rfl, ?_⟩
    intro a ha e he
    rw [hkeys]
    fin_cases ha <;> fin_cases he <;> decide
  · intro pix
    rfl

/-- C7: the colour classifier returns the palette category whose reference
colour minimises the Manhattan distance to the sample, with ties broken by
palette iteration order (keys ascend in palette order, so every
earlier-in-palette key has strictly greater distance), and the two concrete
checks hold: pure green classifies as 1 (Low) and (250, 250, 10) as 2
(Moderate). -/
theorem claim_C7 :
    (∀ r g b : ℤ,
       (∀ k ∈ [1, 2, 3, 4, 5],
          dangerDist (classify_danger (r, g, b)) (r, g, b) ≤ dangerDist k (r, g, b)) ∧
       (∀ k ∈ [1, 2, 3, 4, 5], k < classify_danger (r, g, b) →
          dangerDist (classify_danger (r, g, b)) (r, g, b) < dangerDist k (r, g, b))) ∧
    classify_danger (0, 255, 0) = 1 ∧
    classify_danger (250, 250, 10) = 2 := by
  refine ⟨?_, by decide, by decide⟩
  intro r g b
  have hc : classify_danger (r, g, b) =
      (pyMinByVal (1, manhattan (0, 255, 0) (r, g, b))
        [(2, manhattan (255, 255, 0) (r, g, b)), (3, manhattan (255, 128, 0) (r, g, b)),
         (4, manhattan (255, 0, 0) (r, g, b)), (5, manhattan (0, 0, 0) (r, g, b))]).1 := rfl
  have hd1 : dangerDist 1 (r, g, b) = manhattan (0, 255, 0) (r, g, b) := rfl
  have hd2 : dangerDist 2 (r, g, b) = manhattan (255, 255, 0) (r, g, b) := rfl
  have hd3 : dangerDist 3 (r, g, b) = manhattan (255, 128, 0) (r, g, b) := rfl
  have hd4 : dangerDist 4 (r, g, b) = manhattan (255, 0, 0) (r, g, b) := rfl
  have hd5 : dangerDist 5 (r, g, b) = manhattan (0, 0, 0) (r, g, b) := rfl
  obtain H | H | H | H | H := pyMin5_first
      (manhattan (0, 255, 0) (r, g, b)) (manhattan (255, 255, 0) (r, g, b))
      (manhattan (255, 128, 0) (r, g, b)) (manhattan (255, 0, 0) (r, g, b))
      (manhattan (0, 0, 0) (r, g, b)) <;>
    obtain ⟨hmin, hA, hB, hC, hD⟩ := H <;>
    constructor <;> intro k hk <;> fin_cases hk <;>
      simp only [hc, hmin, hd1, hd2, hd3, hd4, hd5] <;> omega

/-- C8 counterexample: with the stored end date equal to today
(2026-10-12), the update is NOT a no-op — the code's boundary is
`stored end + 1 day == today`, so it harvests (from 2026-10-13!) and
rewrites the file, rather than returning the existing dataset unchanged. -/
theorem claim_C8_counterexample :
    @update_data String "avalanche@2026_09_01&2026_10_12.csv" ⟨2026, 10, 12⟩
        (fun _ => ["r0"]) (fun _ _ => ["harvA"]) (fun _ _ => ["harvO"]) (fun _ _ => ["harvF"]) =
      .ok ⟨["r0", "harvO"], some "avalanche@2026_09_01&2026_10_12.csv"⟩ ∧
    @update_data String "avalanche@2026_09_01&2026_10_12.csv" ⟨2026, 10, 12⟩
        (fun _ => ["r0"]) (fun _ _ => ["harvA"]) (fun _ _ => ["harvO"]) (fun _ _ => ["harvF"]) ≠
      .ok ⟨["r0"], none⟩ := by
  have h : @update_data String "avalanche@2026_09_01&2026_10_12.csv" ⟨2026, 10, 12⟩
      (fun _ => ["r0"]) (fun _ _ => ["harvA"]) (fun _ _ => ["harvO"]) (fun _ _ => ["harvF"]) =
      .ok ⟨["r0", "harvO"], some "avalanche@2026_09_01&2026_10_12.csv"⟩ := rfl
  refine ⟨h, ?_⟩
  rw [h]
  intro hc
  have h2 := congrArg
    (fun x : Except PyErr (UpdateResult String) =>
      match x with
      | .ok u => u.rows.length
      | .error _ => 0) hc
  simp at h2

/-- C8 (amended): the update is a no-op exactly when the stored end date is
the DAY BEFORE today (the code bumps the parsed end date by one day and
compares with today): at that boundary it returns the loaded dataset
unchanged with no rewrite; otherwise it appends the newly harvested rows
(row union, no dedup) and advances the end-date component of the saved key
to today. -/
theorem claim_C8_amended {α : Type} (filename dt st enc en : String) (e today : PyDate)
    (load : String → List α) (avy obs fore : PyDate → PyDate → List α)
    (hdt : (splitOnChar '@' filename).headD "" = dt)
    (hreg : dt ≠ "./forecast")
    (hamp : splitOnChar '&' ((splitOnChar '@' filename).getLastD "") = [st, enc])
    (hend : (splitOnChar '.' enc).headD "" = en)
    (hpd : parseDate en = some e) :
    (update_data filename today load avy obs fore = .ok ⟨load filename, none⟩ ↔
       succDay e = today) ∧
    (succDay e ≠ today →
       update_data filename today load avy obs fore =
         .ok ⟨load filename ++
                (if dt = "./avalanche" then avy (succDay e) today
                 else obs (succDay e) today),
              some (if dt = "forecast"
                    then dt ++ "@" ++ "" ++ "@" ++ st ++ "&" ++ formatDateU today ++ ".csv"
                    else dt ++ "@" ++ st ++ "&" ++ formatDateU today ++ ".csv")⟩) := by
  have hup : ∀ hne : ¬ succDay e = today,
      update_data filename today load avy obs fore =
        .ok ⟨load filename ++
               (if dt = "./avalanche" then avy (succDay e) today
                else obs (succDay e) today),
             some (if dt = "forecast"
                   then dt ++ "@" ++ "" ++ "@" ++ st ++ "&" ++ formatDateU today ++ ".csv"
                   else dt ++ "@" ++ st ++ "&" ++ formatDateU today ++ ".csv")⟩ := by
    intro hne
    simp only [update_data, hdt, hamp, if_neg hreg]
    have h1 : ([st, enc] : List String).headD "" = st := rfl
    have h2 : ([st, enc] : List String)[1]? = some enc := rfl
    simp only [h1, h2, hend, hpd, if_neg hne]
  constructor
  · constructor
    · intro hupd
      by_contra hne
      rw [hup hne] at hupd
      have h2 := congrArg
        (fun x : Except PyErr (UpdateResult α) =>
          match x with
          | .ok u => u.savedFilename.isSome
          | .error _ => true) hupd
      simp at h2
    · intro hb
      simp only [update_data, hdt, hamp, if_neg hreg]
      have h1 : ([st, enc] : List String).headD "" = st := rfl
      have h2 : ([st, enc] : List String)[1]? = some enc := rfl
      simp only [h1, h2, hend, hpd, if_pos hb]
  · exact hup

/-- Witness for C8 (amended): with the stored end date 2026-10-11 and today
2026-10-12, the update returns the loaded rows unchanged and rewrites
nothing. -/
theorem claim_C8_amended_witness :
    @update_data String "avalanche@2026_09_01&2026_10_11.csv" ⟨2026, 10, 12⟩
        (fun _ => ["r0"]) (fun _ _ => ["harvA"]) (fun _ _ => ["harvO"]) (fun _ _ => ["harvF"]) =
      .ok ⟨["r0"], none⟩ :=
  (claim_C8_amended "avalanche@2026_09_01&2026_10_11.csv" "avalanche" "2026_09_01"
    "2026_10_11.csv" "2026_10_11" ⟨2026, 10, 11⟩ ⟨2026, 10, 12⟩
    (fun _ => ["r0"]) (fun _ _ => ["harvA"]) (fun _ _ => ["harvO"]) (fun _ _ => ["harvF"])
    rfl (by decide) rfl rfl rfl).1.mpr rfl

/-- C9: the filename key does NOT round-trip through `update_data` for
forecast datasets.  A key saved by `save_data` in the documented format
(`forecast@Salt Lake@...`) fails the code's `'./forecast'` comparison, so
the region is parsed back as empty (and the general-observation harvester
runs) and the key is re-persisted as `forecast@@...` with the region lost;
with the path-prefixed spelling (`./forecast@...`) the region and harvester
are right but the rewrite branch compares against plain `'forecast'` and
drops the region as well.  Record type and dates are preserved and only the
end date advances, but the region component is destroyed either way. -/
theorem claim_C9_roundtrip :
    @update_data String "forecast@Salt Lake@2025_12_01&2026_10_10.csv" ⟨2026, 10, 12⟩
        (fun _ => ["old"]) (fun _ _ => ["harvA"]) (fun _ _ => ["harvO"]) (fun _ _ => ["harvF"]) =
      .ok ⟨["old", "harvO"], some "forecast@@2025_12_01&2026_10_12.csv"⟩ ∧
    @update_data String "./forecast@Salt Lake@2025_12_01&2026_10_10.csv" ⟨2026, 10, 12⟩
        (fun _ => ["old"]) (fun _ _ => ["harvA"]) (fun _ _ => ["harvO"]) (fun _ _ => ["harvF"]) =
      .ok ⟨["old", "harvF"], some "./forecast@2025_12_01&2026_10_12.csv"⟩ :=
  ⟨rfl, rfl⟩

/-- C10: whenever the trailing character of a digit-bearing raw string
differs from the field's canonical unit symbol and the magnitude parse of
the substituted string succeeds, the parsed magnitude is unconditionally
multiplied by 12 (`convert_to_inches`), regardless of which two units are
involved or of the conversion's direction.  (The substitution hypothesis
also restricts to trailing characters that are not regex metacharacters,
the domain on which `re.sub` is modelled.) -/
theorem claim_C10 (raw field : String) (unit field_unit : Char) (rs : String) (m : ℚ)
    (hdig : contains_digit raw = true)
    (hlast : raw.toList.getLast? = some unit)
    (hfu : FIELD_UNITS.lookup field = some field_unit)
    (hne : unit ≠ field_unit)
    (hsub : pyCharSub unit (String.mk [field_unit]) raw = some rs)
    (hmag : parse_magnitude field field_unit rs = .ok m) :
    convert_to_numeric (some raw) field = .ok (some (convert_to_inches m)) ∧
    convert_to_inches m = m * 12 := by
  constructor
  · simp only [convert_to_numeric, hdig, hlast, hfu]
    simp only [hne, ite_not, if_neg hne]
    simp [hsub, hmag, hne]
  · rfl

/-- Witness for C10: a Width value authored in inches (`6"`, canonical unit
feet) is multiplied by 12 — 72 — instead of being divided. -/
theorem claim_C10_witness :
    convert_to_numeric (some "6\"") "Width" = .ok (some 72) := by
  have h := (claim_C10 "6\"" "Width" '\"' '\'' "6'" (((6 : ℕ) : ℚ))
    rfl rfl rfl (by decide) rfl rfl).1
  rw [h]
  norm_num [convert_to_inches]

end UACScrape

